import Mathlib

/-
  Verification of the highload ingestion-to-analysis service (src/main.go).

  Shallow embedding notes.
  * Go float64 values are modelled exactly: rational arithmetic (ℚ) for the
    sums, means and variances the code accumulates, and real numbers (ℝ)
    where the code calls math.Sqrt.  The special float values NaN/Infinity
    cannot arise in the model; the claims under verification assert exactly
    that the guarded code never produces them.
  * The Redis window holds strings and the worker parses each entry with
    strconv.ParseFloat.  An entry is modelled as `Option ℚ`: `some q` for an
    entry that parses to the number q, `none` for an entry whose parse fails.
  * Store round-trips that can fail are modelled by explicit outcome fields
    (`StoreOps`), so one worker loop body becomes a pure function of the
    outcomes it observes.
-/

namespace Highload

/-- Constant windowSize = 50 (src/main.go line 39). -/
def windowSize : Nat := 50

/-- Constant zThreshold = 2.0 (src/main.go line 40). -/
def zThreshold : ℚ := 2

/-- Capacity of the buffered metrics channel, 10_000 (src/main.go line 82). -/
def channelCapacity : Nat := 10000

/-- Metric (src/main.go lines 18-22): timestamp, cpu, rps. -/
structure Metric where
  timestamp : ℤ
  cpu : ℚ
  rps : ℚ
deriving DecidableEq, Repr

/-- The valid numeric samples extracted from a window snapshot: the parse
loop of src/main.go lines 111-120, keeping exactly the entries that parse. -/
def nums (values : List (Option ℚ)) : List ℚ := values.filterMap id

/-- Helper over the parsed list: count = len(nums) (line 122). -/
def countOf (ns : List ℚ) : Nat := ns.length

/-- Helper over the parsed list: mean = sum / count when count > 0, else the
initial 0.0 (lines 123-126). -/
def meanOf (ns : List ℚ) : ℚ :=
  if 0 < ns.length then ns.sum / (ns.length : ℚ) else 0

/-- Helper over the parsed list: variance = (Σ (x - mean)²) / count when
count > 0, else 0 (lines 127-132). -/
def varianceOf (ns : List ℚ) : ℚ :=
  if 0 < ns.length then
    ((ns.map fun x => (x - meanOf ns) ^ 2).sum) / (ns.length : ℚ)
  else 0

/-- Helper over the parsed list: stddev = math.Sqrt(variance) when count > 0,
else the initial 0.0 (lines 124, 133). -/
noncomputable def stddevOf (ns : List ℚ) : ℝ :=
  if 0 < ns.length then Real.sqrt (varianceOf ns : ℝ) else 0

/-- Helper over the parsed list: z = (rps - mean) / stddev when
count > 1 && stddev > 0, else the initial 0.0 (lines 136-139). -/
noncomputable def zScoreOf (ns : List ℚ) (rps : ℚ) : ℝ :=
  if 1 < ns.length ∧ 0 < stddevOf ns then
    ((rps : ℝ) - (meanOf ns : ℝ)) / stddevOf ns
  else 0

/-- Helper over the parsed list: isAnomaly = |z| > zThreshold (line 140). -/
def isAnomalyOf (ns : List ℚ) (rps : ℚ) : Prop :=
  (zThreshold : ℝ) < |zScoreOf ns rps|

/-- count over a raw window snapshot (line 122). -/
def count (values : List (Option ℚ)) : Nat := countOf (nums values)

/-- mean over a raw window snapshot (lines 123-126). -/
def mean (values : List (Option ℚ)) : ℚ := meanOf (nums values)

/-- variance over a raw window snapshot (lines 127-132). -/
def variance (values : List (Option ℚ)) : ℚ := varianceOf (nums values)

/-- stddev over a raw window snapshot (lines 124-133). -/
noncomputable def stddev (values : List (Option ℚ)) : ℝ := stddevOf (nums values)

/-- zScore over a raw window snapshot (lines 136-139). -/
noncomputable def zScore (values : List (Option ℚ)) (rps : ℚ) : ℝ :=
  zScoreOf (nums values) rps

/-- isAnomaly over a raw window snapshot (line 140). -/
def isAnomaly (values : List (Option ℚ)) (rps : ℚ) : Prop :=
  isAnomalyOf (nums values) rps

/-- Analysis (src/main.go lines 24-36). -/
structure Analysis where
  count : Nat
  windowSize : Nat
  rollingAvg : ℚ
  stdDev : ℝ
  zScore : ℝ
  isAnomaly : Prop
  lastRPS : ℚ
  lastCPU : ℚ
  lastTs : ℤ
  thresholdZ : ℚ
  computedAt : ℤ

/-- The Analysis record a worker builds from a window snapshot, the
triggering Metric and the current time (src/main.go lines 142-154). -/
noncomputable def mkAnalysis (values : List (Option ℚ)) (m : Metric)
    (now : ℤ) : Analysis :=
  { count := count values
    windowSize := windowSize
    rollingAvg := mean values
    stdDev := stddev values
    zScore := zScore values m.rps
    isAnomaly := isAnomaly values m.rps
    lastRPS := m.rps
    lastCPU := m.cpu
    lastTs := m.timestamp
    thresholdZ := zThreshold
    computedAt := now }

/-- HTTP method of an incoming request, as inspected by the handlers. -/
inductive HMethod
  | GET
  | POST
  | PUT
  | DELETE
deriving DecidableEq, Repr

/-- The body of a POST /ingest request after Go json decoding of a flat
object into Metric: `malformed` when json.Decode returns an error, otherwise
the three optional fields (a field absent from the object is `none` and Go
leaves the struct field at its zero value). -/
inductive JsonBody
  | malformed
  | object (timestamp : Option ℤ) (cpu : Option ℚ) (rps : Option ℚ)
deriving DecidableEq, Repr

/-- Go json.Decode of a request body into a Metric (src/main.go lines
180-184): an error for malformed JSON, otherwise zero values for absent
fields. -/
def decodeMetric : JsonBody → Option Metric
  | JsonBody.malformed => none
  | JsonBody.object t c r =>
      some { timestamp := t.getD 0, cpu := c.getD 0, rps := r.getD 0 }

/-- In-process state touched by handleIngest: the buffered metrics channel
(as the list of queued metrics) and the ingestTotal counter. -/
structure IngestState where
  queue : List Metric
  ingestTotal : Nat
deriving DecidableEq, Repr

/-- An HTTP response: status code, body text, and whether the json
Content-Type header was set. -/
structure HttpResponse where
  status : Nat
  body : String
  contentTypeJson : Bool
deriving DecidableEq, Repr

/-- The 202 response body written on admission (src/main.go line 194). -/
def acceptedBody : String := "\x7b\"status\":\"accepted\"\x7d"

/-- handleIngest (src/main.go lines 171-198): reject non-POST with 405,
reject malformed JSON with 400, replace a zero timestamp with the current
time, then try a non-blocking channel send: enqueue + count + 202 when the
buffered channel has room, 503 otherwise. -/
def handleIngest (method : HMethod) (body : JsonBody) (now : ℤ)
    (st : IngestState) : IngestState × HttpResponse :=
  if method ≠ HMethod.POST then
    (st, { status := 405, body := "POST only\n", contentTypeJson := false })
  else
    match decodeMetric body with
    | none =>
        (st, { status := 400, body := "bad json\n", contentTypeJson := false })
    | some m0 =>
        let m := if m0.timestamp = 0 then
                   { m0 with timestamp := now } else m0
        if st.queue.length < channelCapacity then
          ({ queue := st.queue ++ [m], ingestTotal := st.ingestTotal + 1 },
           { status := 202, body := acceptedBody, contentTypeJson := true })
        else
          (st, { status := 503, body := "overloaded\n", contentTypeJson := false })

/-- Outcome of the redis GET last_analysis call in handleAnalyze:
`nilKey` for redis.Nil (key never written), `err` for any other redis
error, `ok` for a successful read of the stored JSON string. -/
inductive GetResult
  | nilKey
  | err (e : String)
  | ok (v : String)
deriving DecidableEq, Repr

/-- handleAnalyze (src/main.go lines 200-218): 405 for non-GET, 204 for
redis.Nil, 503 for any other read error, otherwise 200 with the stored
JSON body. -/
def handleAnalyze (method : HMethod) (res : GetResult) : HttpResponse :=
  if method ≠ HMethod.GET then
    { status := 405, body := "GET only\n", contentTypeJson := false }
  else
    match res with
    | GetResult.nilKey => { status := 204, body := "", contentTypeJson := false }
    | GetResult.err e =>
        { status := 503, body := "redis error: " ++ e ++ "\n",
          contentTypeJson := false }
    | GetResult.ok v => { status := 200, body := v, contentTypeJson := true }

/-- Outcomes one worker loop body observes from its four redis round-trips:
an error message for a failing LPUSH/LTRIM/SET, and either an error or a
window snapshot for LRANGE. -/
structure StoreOps where
  pushErr : Option String
  trimErr : Option String
  rangeRes : Except String (List (Option ℚ))
  setErr : Option String

/-- The prometheus gauges and counters a worker writes (src/main.go lines
161-167): rolling-average gauge, anomaly counter, anomaly 0/1 gauge. -/
structure Gauges where
  rollingAvg : ℚ
  anomalyTotal : Nat
  anomalyRate : ℚ

/-- What one worker loop body did: the log lines it emitted (worker id and
message), the Analysis it persisted via SET if that succeeded, the gauge
state it left behind, and whether the gauge-update step (lines 161-167)
was reached at all. -/
structure IterResult where
  logs : List (Nat × String)
  persisted : Option Analysis
  gauges : Gauges
  gaugeStepRan : Bool

section
open Classical

/-- One iteration of worker (src/main.go lines 95-168) for one dequeued
Metric, as a function of the store outcomes: each failing store call is
logged with the worker id; LPUSH/LTRIM/LRANGE failures `continue` to the
next Metric before anything else runs, while a SET failure is logged and
then falls through to the gauge updates. -/
noncomputable def workerIter (id : Nat) (ops : StoreOps) (m : Metric)
    (now : ℤ) (g : Gauges) : IterResult :=
  match ops.pushErr with
  | some e =>
      { logs := [(id, "redis LPUSH error: " ++ e)], persisted := none,
        gauges := g, gaugeStepRan := false }
  | none =>
  match ops.trimErr with
  | some e =>
      { logs := [(id, "redis LTRIM error: " ++ e)], persisted := none,
        gauges := g, gaugeStepRan := false }
  | none =>
  match ops.rangeRes with
  | Except.error e =>
      { logs := [(id, "redis LRANGE error: " ++ e)], persisted := none,
        gauges := g, gaugeStepRan := false }
  | Except.ok values =>
      let anal := mkAnalysis values m now
      let g2 : Gauges :=
        { rollingAvg := mean values
          anomalyTotal := if isAnomaly values m.rps then g.anomalyTotal + 1
                          else g.anomalyTotal
          anomalyRate := if isAnomaly values m.rps then 1 else 0 }
      match ops.setErr with
      | some e =>
          { logs := [(id, "redis SET last_analysis error: " ++ e)],
            persisted := none, gauges := g2, gaugeStepRan := true }
      | none =>
          { logs := [], persisted := some anal, gauges := g2,
            gaugeStepRan := true }

end

/-- Redis LPUSH on the window list: prepend (src/main.go line 96). -/
def lpush (x : α) (l : List α) : List α := x :: l

/-- Redis LTRIM key 0 stop with an inclusive nonnegative stop index, the
only form the code issues (src/main.go line 100): keep entries 0..stop. -/
def ltrim (stop : Nat) (l : List α) : List α := l.take (stop + 1)

/-- Redis LRANGE key 0 stop with an inclusive nonnegative stop index, the
only form the code issues (src/main.go line 105): read entries 0..stop. -/
def lrange (stop : Nat) (l : List α) : List α := l.take (stop + 1)

/-- The window list after one worker pushed its Metric RPS and trimmed
(src/main.go lines 96-103). -/
def windowAfterPush (rps : ℚ) (w : List (Option ℚ)) : List (Option ℚ) :=
  ltrim (windowSize - 1) (lpush (some rps) w)

/-- The snapshot the worker reads back after push and trim
(src/main.go line 105). -/
def snapshot (rps : ℚ) (w : List (Option ℚ)) : List (Option ℚ) :=
  lrange (windowSize - 1) (windowAfterPush rps w)

/-! Basic lemmas about the statistics helpers. -/

theorem nums_replicate (k : Nat) (v : ℚ) :
    nums (List.replicate k (some v)) = List.replicate k v := by
  induction k with
  | zero => rfl
  | succ n ih => simp only [List.replicate_succ, nums, List.filterMap_cons] at ih ⊢; simp [ih]

theorem count_eq_length (values : List (Option ℚ)) :
    count values = (nums values).length := rfl

theorem meanOf_replicate (k : Nat) (v : ℚ) (hk : 0 < k) :
    meanOf (List.replicate k v) = v := by
  have hk0 : (k : ℚ) ≠ 0 := Nat.cast_ne_zero.mpr hk.ne'
  simp only [meanOf, List.length_replicate, if_pos hk, List.sum_replicate,
    nsmul_eq_mul]
  exact mul_div_cancel_left₀ v hk0

theorem varianceOf_replicate (k : Nat) (v : ℚ) :
    varianceOf (List.replicate k v) = 0 := by
  rcases Nat.eq_zero_or_pos k with h | h
  · subst h; rfl
  · simp [varianceOf, List.length_replicate, if_pos h, List.map_replicate,
      meanOf_replicate k v h, sub_self, List.sum_replicate]

theorem stddevOf_replicate (k : Nat) (v : ℚ) :
    stddevOf (List.replicate k v) = 0 := by
  rcases Nat.eq_zero_or_pos k with h | h
  · subst h; rfl
  · simp [stddevOf, List.length_replicate, if_pos h, varianceOf_replicate]

theorem varianceOf_nonneg (ns : List ℚ) : 0 ≤ varianceOf ns := by
  unfold varianceOf
  split
  · apply div_nonneg
    · apply List.sum_nonneg
      intro x hx
      obtain ⟨y, _, rfl⟩ := List.mem_map.mp hx
      positivity
    · positivity
  · exact le_refl 0

theorem stddevOf_nonneg (ns : List ℚ) : 0 ≤ stddevOf ns := by
  unfold stddevOf
  split
  · exact Real.sqrt_nonneg _
  · exact le_refl 0

theorem stddevOf_sq (ns : List ℚ) (h : 0 < ns.length) :
    stddevOf ns ^ 2 = ((varianceOf ns : ℚ) : ℝ) := by
  rw [stddevOf, if_pos h]
  exact Real.sq_sqrt (by exact_mod_cast varianceOf_nonneg ns)

theorem stddevOf_pos_iff (ns : List ℚ) (h : 0 < ns.length) :
    0 < stddevOf ns ↔ 0 < varianceOf ns := by
  rw [stddevOf, if_pos h, Real.sqrt_pos]
  exact_mod_cast Iff.rfl

theorem zScoreOf_of_not_guard (ns : List ℚ) (rps : ℚ)
    (h : ¬ (1 < ns.length ∧ 0 < stddevOf ns)) : zScoreOf ns rps = 0 := by
  rw [zScoreOf, if_neg h]

theorem isAnomalyOf_false_of_zero (ns : List ℚ) (rps : ℚ)
    (h : zScoreOf ns rps = 0) : ¬ isAnomalyOf ns rps := by
  simp [isAnomalyOf, h, zThreshold]

/-- C1: a window with no valid samples yields mean = 0, stdDev = 0,
zScore = 0, isAnomaly = false; a window with one valid sample yields
zScore = 0 for every triggering RPS; a window of k > 1 identical values v
yields stdDev = 0 and, with triggering RPS v, zScore = 0 — all defined
fallbacks, never NaN or Infinity. -/
theorem c1_degenerate_statistics (values : List (Option ℚ)) (rps v : ℚ)
    (k : Nat) :
    (count values = 0 →
       mean values = 0 ∧ stddev values = 0 ∧ zScore values rps = 0 ∧
         ¬ isAnomaly values rps)
    ∧ (count values = 1 → zScore values rps = 0)
    ∧ (1 < k →
       stddev (List.replicate k (some v)) = 0 ∧
         zScore (List.replicate k (some v)) v = 0) := by
  refine ⟨?_, ?_, ?_⟩
  · intro h
    rw [count_eq_length] at h
    refine ⟨?_, ?_, ?_, ?_⟩
    · simp [mean, meanOf, h]
    · simp [stddev, stddevOf, h]
    · simp [zScore, zScoreOf, h]
    · exact isAnomalyOf_false_of_zero _ _ (by simp [zScoreOf, h])
  · intro h
    rw [count_eq_length] at h
    exact zScoreOf_of_not_guard _ _ (by simp [h])
  · intro _
    constructor
    · rw [stddev, nums_replicate, stddevOf_replicate]
    · rw [zScore, nums_replicate]
      exact zScoreOf_of_not_guard _ _
        (by simp [stddevOf_replicate])

/-- Witness for C1 at the empty window, a one-sample window, and a window
of three identical values. -/
theorem c1_degenerate_statistics_witness :
    (mean ([] : List (Option ℚ)) = 0 ∧ stddev ([] : List (Option ℚ)) = 0 ∧
       zScore ([] : List (Option ℚ)) 7 = 0 ∧
       ¬ isAnomaly ([] : List (Option ℚ)) 7)
    ∧ zScore [some 5] 7 = 0
    ∧ (stddev (List.replicate 3 (some 4)) = 0 ∧
       zScore (List.replicate 3 (some 4)) 4 = 0) :=
  ⟨(c1_degenerate_statistics [] 7 4 3).1 rfl,
   (c1_degenerate_statistics [some 5] 7 4 3).2.1 rfl,
   (c1_degenerate_statistics [] 7 4 3).2.2 (by norm_num)⟩

/-! Concrete evaluations used by witnesses. -/

theorem nums_pair : nums [some 1, some 2] = [1, 2] := rfl

theorem meanOf_pair : meanOf [1, 2] = 3 / 2 := by
  norm_num [meanOf, List.sum_cons, List.sum_nil]

theorem varianceOf_pair : varianceOf [1, 2] = 1 / 4 := by
  norm_num [varianceOf, meanOf_pair, List.sum_cons, List.sum_nil]

theorem stddev_pair : stddev [some 1, some 2] = 1 / 2 := by
  rw [stddev, nums_pair, stddevOf, if_pos (by norm_num), varianceOf_pair]
  rw [show (((1 / 4 : ℚ) : ℝ)) = (1 / 2 : ℝ) ^ 2 by norm_num]
  exact Real.sqrt_sq (by norm_num)

theorem stddev_pair_pos : 0 < stddev [some 1, some 2] := by
  rw [stddev_pair]; norm_num

theorem zScore_pair : zScore [some 1, some 2] 3 = 3 := by
  rw [zScore, nums_pair, zScoreOf,
    if_pos ⟨by norm_num, by rw [← nums_pair, ← stddev]; exact stddev_pair_pos⟩,
    meanOf_pair, ← nums_pair, ← stddev, stddev_pair]
  norm_num

/-- C2: in every worker iteration the z-score equals
(triggering RPS − mean) / stdDev exactly when count > 1 and stdDev > 0 and
equals 0 otherwise, and a nonzero z-score certifies that the guard held, so
the division never divides by zero. -/
theorem c2_zscore_guarded (values : List (Option ℚ)) (rps : ℚ) :
    (1 < count values ∧ 0 < stddev values →
       zScore values rps = ((rps : ℝ) - (mean values : ℝ)) / stddev values)
    ∧ (¬ (1 < count values ∧ 0 < stddev values) → zScore values rps = 0)
    ∧ (zScore values rps ≠ 0 → 0 < stddev values ∧ 1 < count values) := by
  refine ⟨?_, ?_, ?_⟩
  · intro h
    have h2 : 1 < (nums values).length ∧ 0 < stddevOf (nums values) := h
    rw [zScore, zScoreOf, if_pos h2]
    rfl
  · intro h
    exact zScoreOf_of_not_guard _ _ h
  · intro h
    by_cases hg : 1 < count values ∧ 0 < stddev values
    · exact ⟨hg.2, hg.1⟩
    · exact absurd (zScoreOf_of_not_guard _ _ hg) h

/-- Witness for C2 on the window [1, 2] with triggering RPS 3: the guard
holds, the division is taken and evaluates to 3; on the window [5] the guard
fails and the z-score is the fallback 0. -/
theorem c2_zscore_guarded_witness :
    (1 < count [some 1, some 2] ∧ 0 < stddev [some 1, some 2])
    ∧ zScore [some 1, some 2] 3 =
        ((3 : ℝ) - ((mean [some 1, some 2] : ℚ) : ℝ)) / stddev [some 1, some 2]
    ∧ zScore [some 5] 3 = 0
    ∧ (0 < stddev [some 1, some 2] ∧ 1 < count [some 1, some 2]) := by
  have hg : 1 < count [some 1, some 2] ∧ 0 < stddev [some 1, some 2] :=
    ⟨by decide, stddev_pair_pos⟩
  refine ⟨hg, (c2_zscore_guarded [some 1, some 2] 3).1 hg, ?_, ?_⟩
  · exact (c2_zscore_guarded [some 5] 3).2.1 (fun h => absurd h.1 (by decide))
  · exact (c2_zscore_guarded [some 1, some 2] 3).2.2
      (by rw [zScore_pair]; norm_num)

/-! Concrete evaluations for the window [10, 20, 30]. -/

theorem nums_triple : nums [some 10, some 20, some 30] = [10, 20, 30] := rfl

theorem meanOf_triple : meanOf [10, 20, 30] = 20 := by
  norm_num [meanOf, List.sum_cons, List.sum_nil]

theorem varianceOf_triple : varianceOf [10, 20, 30] = 200 / 3 := by
  norm_num [varianceOf, meanOf_triple, List.sum_cons, List.sum_nil]

theorem stddev_triple :
    stddev [some 10, some 20, some 30] = Real.sqrt ((200 : ℝ) / 3) := by
  rw [stddev, nums_triple, stddevOf, if_pos (by norm_num), varianceOf_triple]
  norm_num

/-- C3: for every non-empty parsed window, mean is the arithmetic mean and
stdDev is the population standard deviation (squared deviations summed and
divided by count, not count − 1); on the window [10, 20, 30] the mean is
exactly 20 and the stdDev is sqrt(200/3), which lies strictly between 8.16
and 8.17. -/
theorem c3_population_statistics (values : List (Option ℚ)) :
    (0 < count values →
       mean values = (nums values).sum / (count values : ℚ) ∧
       stddev values =
         Real.sqrt
           (((((nums values).map fun x => (x - mean values) ^ 2).sum /
               (count values : ℚ) : ℚ) : ℝ)))
    ∧ mean [some 10, some 20, some 30] = 20
    ∧ stddev [some 10, some 20, some 30] = Real.sqrt ((200 : ℝ) / 3)
    ∧ (8.16 : ℝ) < stddev [some 10, some 20, some 30]
    ∧ stddev [some 10, some 20, some 30] < (8.17 : ℝ) := by
  refine ⟨?_, ?_, stddev_triple, ?_, ?_⟩
  · intro h
    rw [count_eq_length] at h
    constructor
    · rw [mean, meanOf, if_pos h, count_eq_length]
    · rw [stddev, stddevOf, if_pos h, varianceOf, if_pos h, count_eq_length]
      rfl
  · rw [mean, nums_triple, meanOf_triple]
  · rw [stddev_triple]
    rw [Real.lt_sqrt (by norm_num)]
    norm_num
  · rw [stddev_triple]
    rw [Real.sqrt_lt' (by norm_num)]
    norm_num

/-- Witness for C3 at the window [10, 20, 30]. -/
theorem c3_population_statistics_witness :
    mean [some 10, some 20, some 30] =
      (nums [some 10, some 20, some 30]).sum /
        (count [some 10, some 20, some 30] : ℚ) ∧
    stddev [some 10, some 20, some 30] =
      Real.sqrt
        (((((nums [some 10, some 20, some 30]).map
            fun x => (x - mean [some 10, some 20, some 30]) ^ 2).sum /
            (count [some 10, some 20, some 30] : ℚ) : ℚ) : ℝ)) :=
  (c3_population_statistics [some 10, some 20, some 30]).1 (by decide)

/-- The anomaly flag, characterized without square roots: |z| > 2 holds
exactly when the guard held and the squared deviation of the triggering RPS
from the mean exceeds 4 times the variance. -/
theorem isAnomalyOf_iff (ns : List ℚ) (rps : ℚ) :
    isAnomalyOf ns rps ↔
      1 < ns.length ∧ 0 < varianceOf ns ∧
        4 * varianceOf ns < (rps - meanOf ns) ^ 2 := by
  by_cases hg : 1 < ns.length ∧ 0 < stddevOf ns
  · have hlen : 0 < ns.length := lt_trans one_pos hg.1
    have hσ := hg.2
    have hvar : 0 < varianceOf ns := (stddevOf_pos_iff ns hlen).mp hσ
    have hσ2 : stddevOf ns ^ 2 = ((varianceOf ns : ℚ) : ℝ) := stddevOf_sq ns hlen
    unfold isAnomalyOf
    rw [zScoreOf, if_pos hg, abs_div, abs_of_pos hσ, lt_div_iff₀ hσ]
    have hcast2 : ((zThreshold : ℚ) : ℝ) = 2 := by norm_num [zThreshold]
    rw [hcast2]
    constructor
    · intro h
      refine ⟨hg.1, hvar, ?_⟩
      have key : (4 : ℝ) * ((varianceOf ns : ℚ) : ℝ) <
          (((rps : ℚ) : ℝ) - ((meanOf ns : ℚ) : ℝ)) ^ 2 := by
        nlinarith [mul_self_lt_mul_self
            (by positivity : (0 : ℝ) ≤ 2 * stddevOf ns) h,
          sq_abs (((rps : ℚ) : ℝ) - ((meanOf ns : ℚ) : ℝ)), hσ2,
          abs_nonneg (((rps : ℚ) : ℝ) - ((meanOf ns : ℚ) : ℝ))]
      have : ((4 * varianceOf ns : ℚ) : ℝ) < (((rps - meanOf ns) ^ 2 : ℚ) : ℝ) := by
        push_cast
        convert key using 1
      exact_mod_cast this
    · rintro ⟨-, -, h⟩
      have key : (4 : ℝ) * ((varianceOf ns : ℚ) : ℝ) <
          (((rps : ℚ) : ℝ) - ((meanOf ns : ℚ) : ℝ)) ^ 2 := by
        have := (Rat.cast_lt (K := ℝ)).mpr h
        push_cast at this
        convert this using 1
      by_contra hc
      push_neg at hc
      nlinarith [sq_abs (((rps : ℚ) : ℝ) - ((meanOf ns : ℚ) : ℝ)),
        abs_nonneg (((rps : ℚ) : ℝ) - ((meanOf ns : ℚ) : ℝ)), hσ2, hc]
  · unfold isAnomalyOf
    rw [zScoreOf_of_not_guard ns rps hg]
    simp only [abs_zero]
    constructor
    · intro h
      exact absurd h (by norm_num [zThreshold])
    · rintro ⟨h1, h2, -⟩
      have hlen : 0 < ns.length := lt_trans one_pos h1
      exact absurd ⟨h1, (stddevOf_pos_iff ns hlen).mpr h2⟩ hg

/-- C4: in every worker iteration the computed isAnomaly flag is true
exactly when |zScore| strictly exceeds the threshold 2.0, the persisted
Analysis carries that flag and thresholdZ = 2.0, and the flag is further
characterized by the square-root-free condition over count, variance and
mean. -/
theorem c4_anomaly_threshold (values : List (Option ℚ)) (m : Metric)
    (now : ℤ) :
    ((mkAnalysis values m now).isAnomaly ↔
       (2 : ℝ) < |(mkAnalysis values m now).zScore|)
    ∧ (mkAnalysis values m now).thresholdZ = 2
    ∧ ((mkAnalysis values m now).isAnomaly ↔ isAnomaly values m.rps)
    ∧ ((mkAnalysis values m now).isAnomaly ↔
       1 < count values ∧ 0 < variance values ∧
         4 * variance values < (m.rps - mean values) ^ 2) := by
  refine ⟨?_, rfl, Iff.rfl, ?_⟩
  · show isAnomalyOf (nums values) m.rps ↔ _
    unfold isAnomalyOf
    norm_num [mkAnalysis, zThreshold, zScore]
  · exact isAnomalyOf_iff (nums values) m.rps

/-- C5: a POST /ingest request with well-formed JSON is enqueued with the
ingest counter incremented and answered 202 with the accepted body when the
queue has room, and is rejected with 503 — nothing enqueued, counter
untouched — when the queue is full. -/
theorem c5_ingest_admission (body : JsonBody) (m0 : Metric) (now : ℤ)
    (st : IngestState) :
    decodeMetric body = some m0 →
    (st.queue.length < channelCapacity →
       handleIngest HMethod.POST body now st =
         ({ queue := st.queue ++
              [if m0.timestamp = 0 then { m0 with timestamp := now } else m0],
            ingestTotal := st.ingestTotal + 1 },
          { status := 202, body := acceptedBody, contentTypeJson := true }))
    ∧ (¬ st.queue.length < channelCapacity →
       handleIngest HMethod.POST body now st =
         (st, { status := 503, body := "overloaded\n",
                contentTypeJson := false })) := by
  intro hdec
  constructor
  · intro h
    simp [handleIngest, hdec, h]
  · intro h
    simp [handleIngest, hdec, h]

/-- Witness for C5: a well-formed body is admitted with 202 into an empty
queue, and rejected with 503 on a full queue of 10000 entries, which stays
unchanged. -/
theorem c5_ingest_admission_witness :
    handleIngest HMethod.POST (JsonBody.object (some 9) (some 1) (some 2)) 5
        { queue := [], ingestTotal := 0 } =
      ({ queue := [{ timestamp := 9, cpu := 1, rps := 2 }], ingestTotal := 1 },
       { status := 202, body := acceptedBody, contentTypeJson := true })
    ∧ handleIngest HMethod.POST (JsonBody.object (some 9) (some 1) (some 2)) 5
        { queue := List.replicate 10000 { timestamp := 9, cpu := 1, rps := 2 },
          ingestTotal := 3 } =
      ({ queue := List.replicate 10000 { timestamp := 9, cpu := 1, rps := 2 },
         ingestTotal := 3 },
       { status := 503, body := "overloaded\n", contentTypeJson := false }) := by
  constructor
  · have h := (c5_ingest_admission (JsonBody.object (some 9) (some 1) (some 2))
      { timestamp := 9, cpu := 1, rps := 2 } 5
      { queue := [], ingestTotal := 0 } rfl).1
      (by norm_num [channelCapacity])
    rw [if_neg (by norm_num :
      ¬ ({ timestamp := 9, cpu := 1, rps := 2 } : Metric).timestamp = 0)] at h
    exact h
  · exact (c5_ingest_admission (JsonBody.object (some 9) (some 1) (some 2))
      { timestamp := 9, cpu := 1, rps := 2 } 5
      { queue := List.replicate 10000 { timestamp := 9, cpu := 1, rps := 2 },
        ingestTotal := 3 } rfl).2
      (by rw [List.length_replicate]; norm_num [channelCapacity])

/-- C7: GET /analyze returns 200 with the persisted JSON body, 204 when the
store has no persisted Analysis (redis.Nil), 503 on any other store read
error, and every non-GET request gets 405. -/
theorem c7_analyze_responses (method : HMethod) (e v : String) :
    (method ≠ HMethod.GET →
       ∀ res : GetResult, handleAnalyze method res =
         { status := 405, body := "GET only\n", contentTypeJson := false })
    ∧ handleAnalyze HMethod.GET GetResult.nilKey =
        { status := 204, body := "", contentTypeJson := false }
    ∧ handleAnalyze HMethod.GET (GetResult.err e) =
        { status := 503, body := "redis error: " ++ e ++ "\n",
          contentTypeJson := false }
    ∧ handleAnalyze HMethod.GET (GetResult.ok v) =
        { status := 200, body := v, contentTypeJson := true } := by
  refine ⟨?_, rfl, rfl, rfl⟩
  intro h res
  simp [handleAnalyze, h]

/-- Witness for C7: a POST to /analyze gets 405. -/
theorem c7_analyze_responses_witness :
    handleAnalyze HMethod.POST (GetResult.ok "x") =
      { status := 405, body := "GET only\n", contentTypeJson := false } :=
  (c7_analyze_responses HMethod.POST "e" "v").1 (by decide) (GetResult.ok "x")

/-- C6 counterexample: a worker iteration whose LPUSH, LTRIM and LRANGE
succeed but whose SET fails logs the failure and still executes the
observability-gauge update step, contradicting the claim that no later
step of the iteration runs after any store failure. -/
theorem c6_counterexample :
    (workerIter 0
        { pushErr := none, trimErr := none, rangeRes := Except.ok [],
          setErr := some "boom" }
        { timestamp := 1, cpu := 1, rps := 1 } 0
        { rollingAvg := 7, anomalyTotal := 0, anomalyRate := 1 }).gaugeStepRan
      = true
    ∧ (workerIter 0
        { pushErr := none, trimErr := none, rangeRes := Except.ok [],
          setErr := some "boom" }
        { timestamp := 1, cpu := 1, rps := 1 } 0
        { rollingAvg := 7, anomalyTotal := 0, anomalyRate := 1 }).logs
      = [(0, "redis SET last_analysis error: boom")]
    ∧ (workerIter 0
        { pushErr := none, trimErr := none, rangeRes := Except.ok [],
          setErr := some "boom" }
        { timestamp := 1, cpu := 1, rps := 1 } 0
        { rollingAvg := 7, anomalyTotal := 0, anomalyRate := 1 }).gauges.rollingAvg
      = 0 := by
  refine ⟨rfl, rfl, ?_⟩
  show mean [] = 0
  rfl

/-- C6 amended: a failing LPUSH, LTRIM or LRANGE is logged with the worker
identity and aborts the iteration before any later step — nothing is
persisted and the gauge-update step does not run — while a failing SET is
logged with the worker identity and leaves the Analysis unpersisted, but
the gauge-update step still executes for that Sample; in every case there
is no retry and no requeue and the worker proceeds to the next Sample. -/
theorem c6_store_failure_semantics (id : Nat) (ops : StoreOps) (m : Metric)
    (now : ℤ) (g : Gauges) (e : String) :
    (ops.pushErr = some e →
       workerIter id ops m now g =
         { logs := [(id, "redis LPUSH error: " ++ e)], persisted := none,
           gauges := g, gaugeStepRan := false })
    ∧ (ops.pushErr = none → ops.trimErr = some e →
       workerIter id ops m now g =
         { logs := [(id, "redis LTRIM error: " ++ e)], persisted := none,
           gauges := g, gaugeStepRan := false })
    ∧ (ops.pushErr = none → ops.trimErr = none →
       ops.rangeRes = Except.error e →
       workerIter id ops m now g =
         { logs := [(id, "redis LRANGE error: " ++ e)], persisted := none,
           gauges := g, gaugeStepRan := false })
    ∧ (∀ values : List (Option ℚ), ops.pushErr = none → ops.trimErr = none →
       ops.rangeRes = Except.ok values → ops.setErr = some e →
       (workerIter id ops m now g).logs =
           [(id, "redis SET last_analysis error: " ++ e)]
         ∧ (workerIter id ops m now g).persisted = none
         ∧ (workerIter id ops m now g).gaugeStepRan = true) := by
  obtain ⟨p, t, r, s⟩ := ops
  refine ⟨?_, ?_, ?_, ?_⟩
  · rintro rfl
    rfl
  · rintro rfl rfl
    rfl
  · rintro rfl rfl rfl
    rfl
  · rintro values rfl rfl rfl rfl
    exact ⟨rfl, rfl, rfl⟩

/-- Witness for C6 amended at concrete failing operations. -/
theorem c6_store_failure_semantics_witness :
    (workerIter 3
        { pushErr := some "down", trimErr := none, rangeRes := Except.ok [],
          setErr := none }
        { timestamp := 1, cpu := 1, rps := 1 } 0
        { rollingAvg := 0, anomalyTotal := 0, anomalyRate := 0 } =
      { logs := [(3, "redis LPUSH error: " ++ "down")], persisted := none,
        gauges := { rollingAvg := 0, anomalyTotal := 0, anomalyRate := 0 },
        gaugeStepRan := false })
    ∧ (workerIter 3
        { pushErr := none, trimErr := some "down", rangeRes := Except.ok [],
          setErr := none }
        { timestamp := 1, cpu := 1, rps := 1 } 0
        { rollingAvg := 0, anomalyTotal := 0, anomalyRate := 0 } =
      { logs := [(3, "redis LTRIM error: " ++ "down")], persisted := none,
        gauges := { rollingAvg := 0, anomalyTotal := 0, anomalyRate := 0 },
        gaugeStepRan := false })
    ∧ (workerIter 3
        { pushErr := none, trimErr := none, rangeRes := Except.error "down",
          setErr := none }
        { timestamp := 1, cpu := 1, rps := 1 } 0
        { rollingAvg := 0, anomalyTotal := 0, anomalyRate := 0 } =
      { logs := [(3, "redis LRANGE error: " ++ "down")], persisted := none,
        gauges := { rollingAvg := 0, anomalyTotal := 0, anomalyRate := 0 },
        gaugeStepRan := false })
    ∧ ((workerIter 3
        { pushErr := none, trimErr := none, rangeRes := Except.ok [],
          setErr := some "down" }
        { timestamp := 1, cpu := 1, rps := 1 } 0
        { rollingAvg := 0, anomalyTotal := 0, anomalyRate := 0 }).logs =
          [(3, "redis SET last_analysis error: " ++ "down")]
        ∧ (workerIter 3
        { pushErr := none, trimErr := none, rangeRes := Except.ok [],
          setErr := some "down" }
        { timestamp := 1, cpu := 1, rps := 1 } 0
        { rollingAvg := 0, anomalyTotal := 0, anomalyRate := 0 }).persisted = none
        ∧ (workerIter 3
        { pushErr := none, trimErr := none, rangeRes := Except.ok [],
          setErr := some "down" }
        { timestamp := 1, cpu := 1, rps := 1 } 0
        { rollingAvg := 0, anomalyTotal := 0, anomalyRate := 0 }).gaugeStepRan
          = true) :=
  ⟨(c6_store_failure_semantics 3
      { pushErr := some "down", trimErr := none, rangeRes := Except.ok [],
        setErr := none }
      { timestamp := 1, cpu := 1, rps := 1 } 0
      { rollingAvg := 0, anomalyTotal := 0, anomalyRate := 0 } "down").1 rfl,
   (c6_store_failure_semantics 3
      { pushErr := none, trimErr := some "down", rangeRes := Except.ok [],
        setErr := none }
      { timestamp := 1, cpu := 1, rps := 1 } 0
      { rollingAvg := 0, anomalyTotal := 0, anomalyRate := 0 } "down").2.1
      rfl rfl,
   (c6_store_failure_semantics 3
      { pushErr := none, trimErr := none, rangeRes := Except.error "down",
        setErr := none }
      { timestamp := 1, cpu := 1, rps := 1 } 0
      { rollingAvg := 0, anomalyTotal := 0, anomalyRate := 0 } "down").2.2.1
      rfl rfl rfl,
   (c6_store_failure_semantics 3
      { pushErr := none, trimErr := none, rangeRes := Except.ok [],
        setErr := some "down" }
      { timestamp := 1, cpu := 1, rps := 1 } 0
      { rollingAvg := 0, anomalyTotal := 0, anomalyRate := 0 } "down").2.2.2
      [] rfl rfl rfl rfl⟩

/-- Two window snapshots with the same parsed entries yield the same
Analysis. -/
theorem mkAnalysis_congr (v1 v2 : List (Option ℚ)) (m : Metric) (now : ℤ)
    (h : nums v1 = nums v2) : mkAnalysis v1 m now = mkAnalysis v2 m now := by
  unfold mkAnalysis count mean stddev zScore isAnomaly
  rw [h]

/-- C8: a window entry that fails numeric parsing is silently skipped — the
parsed list, count, mean, stdDev and the whole Analysis are the same as if
the entry were absent, and the statistics are computed over exactly the
subsequence of entries that parse. -/
theorem c8_parse_failure_skipped (pre post : List (Option ℚ)) (m : Metric)
    (now : ℤ) :
    nums (pre ++ none :: post) = nums (pre ++ post)
    ∧ count (pre ++ none :: post) = count (pre ++ post)
    ∧ mean (pre ++ none :: post) = mean (pre ++ post)
    ∧ stddev (pre ++ none :: post) = stddev (pre ++ post)
    ∧ mkAnalysis (pre ++ none :: post) m now = mkAnalysis (pre ++ post) m now
    ∧ nums (pre ++ post) = (pre ++ post).filterMap id := by
  have hn : nums (pre ++ none :: post) = nums (pre ++ post) := by
    simp [nums]
  refine ⟨hn, ?_, ?_, ?_, mkAnalysis_congr _ _ m now hn, rfl⟩
  · rw [count, count, hn]
  · rw [mean, mean, hn]
  · rw [stddev, stddev, hn]

/-- C9: a trim to the first W entries followed by a read of that range never
yields more than W = 50 entries, after any number of pushes; in particular
the snapshot a worker reads back — and hence the parsed sample list its
statistics are computed over — has length at most 50. -/
theorem c9_window_trim_bound (w l : List (Option ℚ)) (rps : ℚ)
    (ps : List ℚ) :
    (snapshot rps w).length ≤ windowSize
    ∧ count (snapshot rps w) ≤ windowSize
    ∧ (lrange (windowSize - 1) (ltrim (windowSize - 1)
        (ps.foldl (fun acc x => lpush (some x) acc) l))).length ≤ windowSize := by
  have hb : ∀ t : List (Option ℚ), (lrange (windowSize - 1) t).length ≤ windowSize := by
    intro t
    rw [lrange, List.length_take]
    exact le_trans (min_le_left _ _) (by norm_num [windowSize])
  refine ⟨hb _, ?_, hb _⟩
  calc count (snapshot rps w) ≤ (snapshot rps w).length :=
        List.length_filterMap_le _ _
    _ ≤ windowSize := hb _

/-- C10: on the POST /ingest path a 400 is returned exactly when JSON
decoding fails; a syntactically valid body with missing fields is admitted
with zero defaults (cpu = 0, rps = 0), a zero or absent timestamp is
replaced by the current time, and cpu/rps values are admitted without any
range or presence validation. -/
theorem c10_decode_defaults (t : Option ℤ) (c r : Option ℚ) (now : ℤ)
    (st : IngestState) (body : JsonBody) :
    ((handleIngest HMethod.POST body now st).2.status = 400 ↔
       body = JsonBody.malformed)
    ∧ decodeMetric (JsonBody.object t c r) =
        some { timestamp := t.getD 0, cpu := c.getD 0, rps := r.getD 0 }
    ∧ (st.queue.length < channelCapacity →
        (handleIngest HMethod.POST (JsonBody.object none c r) now st).1 =
          { queue := st.queue ++
              [{ timestamp := now, cpu := c.getD 0, rps := r.getD 0 }],
            ingestTotal := st.ingestTotal + 1 }
        ∧ (handleIngest HMethod.POST (JsonBody.object none c r) now st).2.status
            = 202
        ∧ (handleIngest HMethod.POST (JsonBody.object (some 0) c r) now st).1.queue
            = st.queue ++
              [{ timestamp := now, cpu := c.getD 0, rps := r.getD 0 }]) := by
  refine ⟨?_, rfl, ?_⟩
  · cases body with
    | malformed => simp [handleIngest, decodeMetric]
    | object t0 c0 r0 =>
        by_cases h : st.queue.length < channelCapacity <;>
          simp [handleIngest, decodeMetric, h]
  · intro h
    refine ⟨?_, ?_, ?_⟩ <;> simp [handleIngest, decodeMetric, h]

/-- Witness for C10: an empty-field body is admitted with cpu = 0, rps = 0
and the current time as timestamp, even with a negative cpu no validation
occurs, and an explicit zero timestamp is also replaced. -/
theorem c10_decode_defaults_witness :
    (handleIngest HMethod.POST (JsonBody.object none (some (-5)) none) 4
        { queue := [], ingestTotal := 0 }).1 =
      { queue := [{ timestamp := 4, cpu := -5, rps := 0 }], ingestTotal := 1 }
    ∧ (handleIngest HMethod.POST (JsonBody.object none (some (-5)) none) 4
        { queue := [], ingestTotal := 0 }).2.status = 202
    ∧ (handleIngest HMethod.POST (JsonBody.object (some 0) (some (-5)) none) 4
        { queue := [], ingestTotal := 0 }).1.queue =
        [{ timestamp := 4, cpu := -5, rps := 0 }] := by
  have h := (c10_decode_defaults (some 3) (some (-5)) none 4
      { queue := [], ingestTotal := 0 } JsonBody.malformed).2.2
      (by norm_num [channelCapacity])
  simpa using h

end Highload
